import Mathlib

/-!
Shallow embedding of `src/mic-signal-detector.js`.

The source file contains two variants of the `MicSignalDetector` class,
separated by a document separator:

* variant 1 (lines 1-171): defaults `signalThreshold = 25`,
  `debounceMs = 1000`, `confirmMs = 300`; `startMonitoring` has no analyser
  guard; the offset commit does NOT clear `signalOffTimestamp`.
* variant 2 (lines 172-399): defaults `signalThreshold = 15`,
  `debounceMs = 2000`, `confirmMs = 0`; `startMonitoring` logs an error and
  returns when no analyser is attached; the offset commit clears
  `signalOffTimestamp`.

Modelling conventions:

* `Date.now()` is a natural number supplied once per tick (`now`); the several
  `Date.now()` calls inside one tick of the JS code are modelled as a single
  value, and the JS number subtraction `Date.now() - ts` is modelled on `ℤ`.
* the audio level is a natural number (the JS value is
  `Math.round(sqrt(sum/len)/255*100)`, an integer in 0..100); since the claims
  quantify over the level, the per-tick level is an input of the step function.
* the mid-frequency ratio is computed exactly on `ℚ` from the byte array
  (a `List ℕ`); `Math.floor(len * 0.1)` and `Math.floor(len * 0.4)` are
  modelled as the exact rational floors `len / 10` and `4 * len / 10`.
* the `onSignalStateChanged` callback is modelled as a list of emitted events
  per tick; the `onAudioLevelChanged` callback carries no state and is elided.
* `cancelAnimationFrame` / `console.error` side effects are modelled as
  explicit outputs (`Bool` flag, list of diagnostic strings).
-/

/-- Event passed to `onSignalStateChanged`. -/
structure SignalEvent where
  hasSignal : Bool
  audioLevel : ℕ
  timestamp : ℕ
deriving DecidableEq, Repr

/-- Configurable options stored by the constructor. -/
structure Config where
  SIGNAL_THRESHOLD : ℕ
  SIGNAL_OFF_DEBOUNCE_MS : ℕ
  SIGNAL_ON_CONFIRM_MS : ℕ
deriving DecidableEq, Repr

/-- The `options` object given to the constructor: each field either absent
or a number (we restrict to naturals, the values used by this detector). -/
structure Options where
  signalThreshold : Option ℕ
  debounceMs : Option ℕ
  confirmMs : Option ℕ
deriving DecidableEq, Repr

/-- JS `v || d` for an optional numeric option: an absent field or the falsy
number `0` both yield the default. -/
def jsOrNat (v : Option ℕ) (d : ℕ) : ℕ :=
  match v with
  | none => d
  | some x => if x = 0 then d else x

/-- Variant 1 constructor (lines 14-16): `options.signalThreshold || 25`,
`options.debounceMs || 1000`, `options.confirmMs || 300`. -/
def constructorV1 (opts : Options) : Config :=
  { SIGNAL_THRESHOLD := jsOrNat opts.signalThreshold 25
    SIGNAL_OFF_DEBOUNCE_MS := jsOrNat opts.debounceMs 1000
    SIGNAL_ON_CONFIRM_MS := jsOrNat opts.confirmMs 300 }

/-- Variant 2 constructor (lines 190-192): `options.signalThreshold || 15`,
`options.debounceMs || 2000`, `options.confirmMs || 0`. -/
def constructorV2 (opts : Options) : Config :=
  { SIGNAL_THRESHOLD := jsOrNat opts.signalThreshold 15
    SIGNAL_OFF_DEBOUNCE_MS := jsOrNat opts.debounceMs 2000
    SIGNAL_ON_CONFIRM_MS := jsOrNat opts.confirmMs 0 }

/-- Mutable signal-detection state of the detector. -/
structure SignalState where
  audioLevel : ℕ
  lastHasSignal : Bool
  signalOffTimestamp : Option ℕ
  signalOnTimestamp : Option ℕ
deriving DecidableEq, Repr

/-- Initial construction values (constructor lines 8-11 / 184-187). -/
def initSignalState : SignalState :=
  { audioLevel := 0
    lastHasSignal := false
    signalOffTimestamp := none
    signalOnTimestamp := none }

/-- Mid-frequency band start: `Math.floor(bufferLength * 0.1)`. -/
def midFreqStart (bufferLength : ℕ) : ℕ := bufferLength / 10

/-- Mid-frequency band end: `Math.floor(bufferLength * 0.4)`. -/
def midFreqEnd (bufferLength : ℕ) : ℕ := 4 * bufferLength / 10

/-- Total of all frequency bins (`totalSum` in the `_monitor` loop). -/
def totalSum (data : List ℕ) : ℕ := data.sum

/-- Indexed partial sum of the bins with `lo ≤ i < hi`. -/
def midFreqSumAux (lo hi : ℕ) : ℕ → List ℕ → ℕ
  | _, [] => 0
  | i, d :: rest => (if lo ≤ i ∧ i < hi then d else 0) + midFreqSumAux lo hi (i + 1) rest

/-- Sum of the mid-frequency bins (`midFreqSum` in the `_monitor` loop). -/
def midFreqSum (data : List ℕ) : ℕ :=
  midFreqSumAux (midFreqStart data.length) (midFreqEnd data.length) 0 data

/-- `midFreqRatio = totalSum > 0 ? midFreqSum / totalSum : 0` (lines 79 / 310),
computed exactly on `ℚ`. -/
def midFreqRatio (data : List ℕ) : ℚ :=
  if 0 < totalSum data then (midFreqSum data : ℚ) / (totalSum data : ℚ) else 0

/-- Per-tick raw verdict (lines 87 / 316):
`hasSignal = audioLevel > SIGNAL_THRESHOLD && midFreqRatio > 0.3`.
The formula is identical in both variants. -/
def hasSignalRaw (cfg : Config) (audioLevel : ℕ) (data : List ℕ) : Bool :=
  decide (cfg.SIGNAL_THRESHOLD < audioLevel) && decide ((3 : ℚ) / 10 < midFreqRatio data)

/-- One pass of the `_monitor` state machine of variant 1 (lines 84-128):
the level is written to `audioLevel`, then exactly one of the three branches
(onset confirmation, offset debounce, onset false alarm) runs. In the offset
commit variant 1 does NOT clear `signalOffTimestamp`. Returns the new state
and the events passed to `onSignalStateChanged`. -/
def monitorStepV1 (cfg : Config) (s : SignalState) (now level : ℕ) (hasSignal : Bool) :
    SignalState × List SignalEvent :=
  let s1 : SignalState := { s with audioLevel := level }
  if hasSignal && !s1.lastHasSignal then
    let onTs : ℕ := s1.signalOnTimestamp.getD now
    if (cfg.SIGNAL_ON_CONFIRM_MS : ℤ) ≤ (now : ℤ) - (onTs : ℤ) then
      ({ s1 with lastHasSignal := true, signalOffTimestamp := none, signalOnTimestamp := none },
        [{ hasSignal := true, audioLevel := level, timestamp := now }])
    else
      ({ s1 with signalOnTimestamp := some onTs }, [])
  else if !hasSignal && s1.lastHasSignal then
    let offTs : ℕ := s1.signalOffTimestamp.getD now
    if (cfg.SIGNAL_OFF_DEBOUNCE_MS : ℤ) ≤ (now : ℤ) - (offTs : ℤ) then
      ({ s1 with lastHasSignal := false, signalOffTimestamp := some offTs },
        [{ hasSignal := false, audioLevel := level, timestamp := now }])
    else
      ({ s1 with signalOffTimestamp := some offTs }, [])
  else if !hasSignal && s1.signalOnTimestamp.isSome && !s1.lastHasSignal then
    ({ s1 with signalOnTimestamp := none }, [])
  else
    (s1, [])

/-- One pass of the `_monitor` state machine of variant 2 (lines 315-356):
identical to variant 1 except that the offset commit also sets
`signalOffTimestamp = null` (line 345). -/
def monitorStepV2 (cfg : Config) (s : SignalState) (now level : ℕ) (hasSignal : Bool) :
    SignalState × List SignalEvent :=
  let s1 : SignalState := { s with audioLevel := level }
  if hasSignal && !s1.lastHasSignal then
    let onTs : ℕ := s1.signalOnTimestamp.getD now
    if (cfg.SIGNAL_ON_CONFIRM_MS : ℤ) ≤ (now : ℤ) - (onTs : ℤ) then
      ({ s1 with lastHasSignal := true, signalOffTimestamp := none, signalOnTimestamp := none },
        [{ hasSignal := true, audioLevel := level, timestamp := now }])
    else
      ({ s1 with signalOnTimestamp := some onTs }, [])
  else if !hasSignal && s1.lastHasSignal then
    let offTs : ℕ := s1.signalOffTimestamp.getD now
    if (cfg.SIGNAL_OFF_DEBOUNCE_MS : ℤ) ≤ (now : ℤ) - (offTs : ℤ) then
      ({ s1 with lastHasSignal := false, signalOffTimestamp := none },
        [{ hasSignal := false, audioLevel := level, timestamp := now }])
    else
      ({ s1 with signalOffTimestamp := some offTs }, [])
  else if !hasSignal && s1.signalOnTimestamp.isSome && !s1.lastHasSignal then
    ({ s1 with signalOnTimestamp := none }, [])
  else
    (s1, [])

/-- `reset()` of variant 1 (lines 147-151): clears `audioLevel`,
`lastHasSignal` and `signalOffTimestamp`; `signalOnTimestamp` is not touched. -/
def resetV1 (s : SignalState) : SignalState :=
  { s with audioLevel := 0, lastHasSignal := false, signalOffTimestamp := none }

/-- `reset()` of variant 2 (lines 375-379): same body as variant 1. -/
def resetV2 (s : SignalState) : SignalState :=
  { s with audioLevel := 0, lastHasSignal := false, signalOffTimestamp := none }

/-- Input of one `_monitor` tick: the clock value and the derived level and
raw verdict for that tick. -/
structure Tick where
  now : ℕ
  level : ℕ
  raw : Bool
deriving DecidableEq, Repr

/-- Fold variant 1 ticks over a state (the `_monitor` loop, state only). -/
def runTicksV1 (cfg : Config) (s : SignalState) (ts : List Tick) : SignalState :=
  ts.foldl (fun s t => (monitorStepV1 cfg s t.now t.level t.raw).1) s

/-- Fold variant 2 ticks over a state (the `_monitor` loop, state only). -/
def runTicksV2 (cfg : Config) (s : SignalState) (ts : List Tick) : SignalState :=
  ts.foldl (fun s t => (monitorStepV2 cfg s t.now t.level t.raw).1) s

/-- Operations that mutate the signal state or configuration between ticks. -/
inductive DetectorOp where
  | tick (now level : ℕ) (raw : Bool)
  | reset
  | setSignalThreshold (t : ℕ)
  | setDebounceMs (ms : ℕ)
deriving DecidableEq, Repr

/-- Apply one operation in variant 1 (`_monitor` tick, `reset`,
`setSignalThreshold`, `setDebounceMs`). -/
def applyOpV1 : Config × SignalState → DetectorOp → Config × SignalState
  | (cfg, s), DetectorOp.tick now level raw => (cfg, (monitorStepV1 cfg s now level raw).1)
  | (cfg, s), DetectorOp.reset => (cfg, resetV1 s)
  | (cfg, s), DetectorOp.setSignalThreshold t => ({ cfg with SIGNAL_THRESHOLD := t }, s)
  | (cfg, s), DetectorOp.setDebounceMs ms => ({ cfg with SIGNAL_OFF_DEBOUNCE_MS := ms }, s)

/-- Apply one operation in variant 2. -/
def applyOpV2 : Config × SignalState → DetectorOp → Config × SignalState
  | (cfg, s), DetectorOp.tick now level raw => (cfg, (monitorStepV2 cfg s now level raw).1)
  | (cfg, s), DetectorOp.reset => (cfg, resetV2 s)
  | (cfg, s), DetectorOp.setSignalThreshold t => ({ cfg with SIGNAL_THRESHOLD := t }, s)
  | (cfg, s), DetectorOp.setDebounceMs ms => ({ cfg with SIGNAL_OFF_DEBOUNCE_MS := ms }, s)

/-- Run variant 1 from construction on a list of operations. -/
def runOpsV1 (opts : Options) (ops : List DetectorOp) : Config × SignalState :=
  ops.foldl applyOpV1 (constructorV1 opts, initSignalState)

/-- Run variant 2 from construction on a list of operations. -/
def runOpsV2 (opts : Options) (ops : List DetectorOp) : Config × SignalState :=
  ops.foldl applyOpV2 (constructorV2 opts, initSignalState)

/-- Monitoring-control state of the detector object. -/
structure DetectorState where
  hasAnalyser : Bool
  isMonitoring : Bool
  animationId : Option ℕ
  signal : SignalState
deriving DecidableEq, Repr

/-- `stopMonitoring()` of variant 1 (lines 38-44): set `isMonitoring = false`;
cancel the pending animation frame only when one is set. The `Bool` records
whether `cancelAnimationFrame` was called. -/
def stopMonitoringV1 (d : DetectorState) : DetectorState × Bool :=
  let d1 : DetectorState := { d with isMonitoring := false }
  match d1.animationId with
  | some _ => ({ d1 with animationId := none }, true)
  | none => (d1, false)

/-- `stopMonitoring()` of variant 2 (lines 256-262): same body as variant 1. -/
def stopMonitoringV2 (d : DetectorState) : DetectorState × Bool :=
  let d1 : DetectorState := { d with isMonitoring := false }
  match d1.animationId with
  | some _ => ({ d1 with animationId := none }, true)
  | none => (d1, false)

/-- `startMonitoring()` of variant 1 (lines 29-33) followed by the guard of
`_monitor` (line 50): there is NO analyser check before `isMonitoring` is set,
so without an analyser the flag is still flipped and `_monitor` returns at its
entry guard with no diagnostic. When the tick does run, its inputs
(`now`, `level`, `raw`) are those of the first frame, and the scheduled
`requestAnimationFrame` id is `newId`. Returns the new state, the signal
events of the first tick, and the console diagnostics. -/
def startMonitoringV1 (cfg : Config) (d : DetectorState) (now level : ℕ) (raw : Bool)
    (newId : ℕ) : DetectorState × List SignalEvent × List String :=
  if d.isMonitoring then (d, [], [])
  else
    let d1 : DetectorState := { d with isMonitoring := true }
    if !d1.isMonitoring || !d1.hasAnalyser then (d1, [], [])
    else
      let r := monitorStepV1 cfg d1.signal now level raw
      ({ d1 with signal := r.1, animationId := some newId }, r.2, [])

/-- `startMonitoring()` of variant 2 (lines 243-251): when no analyser is
attached it logs an error and returns before touching `isMonitoring`. -/
def startMonitoringV2 (cfg : Config) (d : DetectorState) (now level : ℕ) (raw : Bool)
    (newId : ℕ) : DetectorState × List SignalEvent × List String :=
  if d.isMonitoring then (d, [], [])
  else if !d.hasAnalyser then
    (d, [], ["Analyser not initialized. Call initialize() first."])
  else
    let d1 : DetectorState := { d with isMonitoring := true }
    let r := monitorStepV2 cfg d1.signal now level raw
    ({ d1 with signal := r.1, animationId := some newId }, r.2, [])

/-! ## Helper lemmas -/

lemma monitorStepV1_events_spec (cfg : Config) (s : SignalState) (now level : ℕ) (raw : Bool) :
    (monitorStepV1 cfg s now level raw).2.length ≤ 1 ∧
    ((monitorStepV1 cfg s now level raw).2 ≠ [] ↔
      (monitorStepV1 cfg s now level raw).1.lastHasSignal ≠ s.lastHasSignal) ∧
    ∀ e ∈ (monitorStepV1 cfg s now level raw).2,
      e.hasSignal = (monitorStepV1 cfg s now level raw).1.lastHasSignal := by
  simp only [monitorStepV1]
  split_ifs with h1 h2 h3 h4 <;> simp_all

lemma monitorStepV2_events_spec (cfg : Config) (s : SignalState) (now level : ℕ) (raw : Bool) :
    (monitorStepV2 cfg s now level raw).2.length ≤ 1 ∧
    ((monitorStepV2 cfg s now level raw).2 ≠ [] ↔
      (monitorStepV2 cfg s now level raw).1.lastHasSignal ≠ s.lastHasSignal) ∧
    ∀ e ∈ (monitorStepV2 cfg s now level raw).2,
      e.hasSignal = (monitorStepV2 cfg s now level raw).1.lastHasSignal := by
  simp only [monitorStepV2]
  split_ifs with h1 h2 h3 h4 <;> simp_all

lemma stopMonitoringV1_spec (d : DetectorState) :
    stopMonitoringV1 (stopMonitoringV1 d).1 = ((stopMonitoringV1 d).1, false) ∧
    (stopMonitoringV1 d).1.isMonitoring = false ∧
    (stopMonitoringV1 d).1.animationId = none ∧
    (d.isMonitoring = false → d.animationId = none → stopMonitoringV1 d = (d, false)) := by
  obtain ⟨ha, im, aid, sig⟩ := d
  cases aid <;> simp [stopMonitoringV1]

lemma stopMonitoringV2_spec (d : DetectorState) :
    stopMonitoringV2 (stopMonitoringV2 d).1 = ((stopMonitoringV2 d).1, false) ∧
    (stopMonitoringV2 d).1.isMonitoring = false ∧
    (stopMonitoringV2 d).1.animationId = none ∧
    (d.isMonitoring = false → d.animationId = none → stopMonitoringV2 d = (d, false)) := by
  obtain ⟨ha, im, aid, sig⟩ := d
  cases aid <;> simp [stopMonitoringV2]

/-! ## Claim theorems -/

/-- C4: the per-tick raw verdict equals the conjunction of the loudness test
`audioLevel > SIGNAL_THRESHOLD` and the mid-frequency-ratio test
`midFreqRatio > 3/10`; a snapshot whose mid-band ratio is at most 3/10 gives a
false verdict no matter how large the audio level is. -/
theorem c4_raw_verdict_conjunction :
    (∀ (cfg : Config) (level : ℕ) (data : List ℕ), hasSignalRaw cfg level data =
      (decide (cfg.SIGNAL_THRESHOLD < level) && decide ((3 : ℚ) / 10 < midFreqRatio data))) ∧
    (∀ (cfg : Config) (data : List ℕ), midFreqRatio data ≤ 3 / 10 →
      ∀ level, hasSignalRaw cfg level data = false) := by
  refine ⟨fun cfg level data => rfl, fun cfg data h level => ?_⟩
  have hn : ¬ ((3 : ℚ) / 10 < midFreqRatio data) := not_lt.mpr h
  simp [hasSignalRaw, hn]

/-- C4 witness: a loud snapshot with all energy in bin 0 has mid-band ratio 0
and is rejected even at audio level 1000. -/
theorem c4_raw_verdict_conjunction_witness :
    midFreqRatio [100, 0, 0, 0, 0, 0, 0, 0, 0, 0] ≤ 3 / 10 ∧
    hasSignalRaw ⟨25, 1000, 300⟩ 1000 [100, 0, 0, 0, 0, 0, 0, 0, 0, 0] = false := by
  have h : midFreqRatio [100, 0, 0, 0, 0, 0, 0, 0, 0, 0] ≤ 3 / 10 := by
    norm_num [midFreqRatio, totalSum, midFreqSum, midFreqStart, midFreqEnd, midFreqSumAux]
  exact ⟨h, c4_raw_verdict_conjunction.2 ⟨25, 1000, 300⟩ _ h 1000⟩

/-- C5 counterexample: after one raw-true tick from the initial state the
onset timestamp is pending (`some 0`); `reset()` leaves it set in both
variants, so the state is not restored to its initial construction values
(which have `signalOnTimestamp = none`). -/
theorem c5_counterexample :
    (resetV1 (monitorStepV1 (constructorV1 ⟨none, none, none⟩)
        initSignalState 0 30 true).1).signalOnTimestamp = some 0 ∧
    (resetV2 (monitorStepV2 (constructorV2 ⟨none, none, some 300⟩)
        initSignalState 0 30 true).1).signalOnTimestamp = some 0 := by
  decide

/-- C5 amended: `reset()` sets `audioLevel` to 0, `lastHasSignal` to false and
`signalOffTimestamp` to null, but leaves `signalOnTimestamp` unchanged, in
both variants. -/
theorem c5_reset_amended (s : SignalState) :
    resetV1 s = { audioLevel := 0, lastHasSignal := false,
                  signalOffTimestamp := none, signalOnTimestamp := s.signalOnTimestamp } ∧
    resetV2 s = { audioLevel := 0, lastHasSignal := false,
                  signalOffTimestamp := none, signalOnTimestamp := s.signalOnTimestamp } :=
  ⟨rfl, rfl⟩

/-- C9: an explicit 0 for any of the three numeric options is falsy in JS, so
`options.x || default` yields the built-in default; in particular variant 1
(whose confirm default is 300) constructed with `confirmMs = 0` has
`SIGNAL_ON_CONFIRM_MS = 300`. -/
theorem c9_falsy_options_use_defaults (opts : Options) :
    (opts.signalThreshold = some 0 →
      (constructorV1 opts).SIGNAL_THRESHOLD = 25 ∧
      (constructorV2 opts).SIGNAL_THRESHOLD = 15) ∧
    (opts.debounceMs = some 0 →
      (constructorV1 opts).SIGNAL_OFF_DEBOUNCE_MS = 1000 ∧
      (constructorV2 opts).SIGNAL_OFF_DEBOUNCE_MS = 2000) ∧
    (opts.confirmMs = some 0 →
      (constructorV1 opts).SIGNAL_ON_CONFIRM_MS = 300 ∧
      (constructorV2 opts).SIGNAL_ON_CONFIRM_MS = 0) := by
  refine ⟨fun h => ?_, fun h => ?_, fun h => ?_⟩ <;>
    simp [constructorV1, constructorV2, jsOrNat, h]

/-- C9 witness: constructing with every option set to 0 yields the defaults. -/
theorem c9_falsy_options_use_defaults_witness :
    (constructorV1 ⟨some 0, some 0, some 0⟩).SIGNAL_ON_CONFIRM_MS = 300 ∧
    (constructorV2 ⟨some 0, some 0, some 0⟩).SIGNAL_THRESHOLD = 15 :=
  ⟨((c9_falsy_options_use_defaults ⟨some 0, some 0, some 0⟩).2.2 rfl).1,
   ((c9_falsy_options_use_defaults ⟨some 0, some 0, some 0⟩).1 rfl).2⟩

/-- C10: on every tick the `onSignalStateChanged` callback fires at most once,
fires exactly when `lastHasSignal` changes value during the tick, and the
emitted event's `hasSignal` equals the new `lastHasSignal`, in both variants. -/
theorem c10_callback_iff_state_change (cfg : Config) (s : SignalState) (now level : ℕ)
    (raw : Bool) :
    ((monitorStepV1 cfg s now level raw).2.length ≤ 1 ∧
      ((monitorStepV1 cfg s now level raw).2 ≠ [] ↔
        (monitorStepV1 cfg s now level raw).1.lastHasSignal ≠ s.lastHasSignal) ∧
      ∀ e ∈ (monitorStepV1 cfg s now level raw).2,
        e.hasSignal = (monitorStepV1 cfg s now level raw).1.lastHasSignal) ∧
    ((monitorStepV2 cfg s now level raw).2.length ≤ 1 ∧
      ((monitorStepV2 cfg s now level raw).2 ≠ [] ↔
        (monitorStepV2 cfg s now level raw).1.lastHasSignal ≠ s.lastHasSignal) ∧
      ∀ e ∈ (monitorStepV2 cfg s now level raw).2,
        e.hasSignal = (monitorStepV2 cfg s now level raw).1.lastHasSignal) :=
  ⟨monitorStepV1_events_spec cfg s now level raw, monitorStepV2_events_spec cfg s now level raw⟩

/-- C7: `stopMonitoring()` is idempotent in both variants: a second call on
the result of a first leaves the state unchanged (`isMonitoring` false,
`animationId` null) and performs no cancellation side effect, and a call when
monitoring was never started (flag already false, no pending frame) returns
the state unchanged with no cancellation. -/
theorem c7_stop_idempotent (d : DetectorState) :
    (stopMonitoringV1 (stopMonitoringV1 d).1 = ((stopMonitoringV1 d).1, false) ∧
      (stopMonitoringV1 d).1.isMonitoring = false ∧
      (stopMonitoringV1 d).1.animationId = none ∧
      (d.isMonitoring = false → d.animationId = none → stopMonitoringV1 d = (d, false))) ∧
    (stopMonitoringV2 (stopMonitoringV2 d).1 = ((stopMonitoringV2 d).1, false) ∧
      (stopMonitoringV2 d).1.isMonitoring = false ∧
      (stopMonitoringV2 d).1.animationId = none ∧
      (d.isMonitoring = false → d.animationId = none → stopMonitoringV2 d = (d, false))) :=
  ⟨stopMonitoringV1_spec d, stopMonitoringV2_spec d⟩

/-- C7 witness: never-started detector is unchanged by `stopMonitoring()`, and
a second stop after a real stop cancels nothing. -/
theorem c7_stop_idempotent_witness :
    stopMonitoringV1 ⟨true, false, none, initSignalState⟩ =
      (⟨true, false, none, initSignalState⟩, false) ∧
    stopMonitoringV2 (stopMonitoringV2 ⟨true, true, some 7, initSignalState⟩).1 =
      ((stopMonitoringV2 ⟨true, true, some 7, initSignalState⟩).1, false) :=
  ⟨(c7_stop_idempotent ⟨true, false, none, initSignalState⟩).1.2.2.2 rfl rfl,
   (c7_stop_idempotent ⟨true, true, some 7, initSignalState⟩).2.1⟩

/-- Phase invariant of variant 2: a pending offset timestamp only exists in
the stable-on phase, a pending onset timestamp only in the stable-off phase. -/
def InvV2 (s : SignalState) : Prop :=
  (s.signalOffTimestamp ≠ none → s.lastHasSignal = true) ∧
  (s.signalOnTimestamp ≠ none → s.lastHasSignal = false)

lemma monitorStepV2_inv (cfg : Config) (s : SignalState) (now level : ℕ) (raw : Bool)
    (h : InvV2 s) : InvV2 (monitorStepV2 cfg s now level raw).1 := by
  obtain ⟨h1, h2⟩ := h
  simp only [InvV2, monitorStepV2]
  split_ifs with a b c d <;> constructor <;> simp_all

lemma applyOpV2_inv (p : Config × SignalState) (op : DetectorOp) (h : InvV2 p.2) :
    InvV2 (applyOpV2 p op).2 := by
  obtain ⟨cfg, s⟩ := p
  cases op with
  | tick now level raw => exact monitorStepV2_inv cfg s now level raw h
  | reset => exact ⟨fun hoff => absurd rfl hoff, fun _ => rfl⟩
  | setSignalThreshold t => exact h
  | setDebounceMs ms => exact h

lemma runOpsV2_inv (opts : Options) (ops : List DetectorOp) : InvV2 (runOpsV2 opts ops).2 := by
  suffices h : ∀ p : Config × SignalState, InvV2 p.2 → InvV2 (ops.foldl applyOpV2 p).2 by
    exact h (constructorV2 opts, initSignalState)
      ⟨fun hoff => absurd rfl hoff, fun hon => absurd rfl hon⟩
  induction ops with
  | nil => exact fun p hp => hp
  | cons op rest ih => exact fun p hp => ih _ (applyOpV2_inv p op hp)

/-- C1 counterexample (variant 2, default options, debounce 2000): from the
stable-on state, a raw-false tick at time 0 starts the offset timer; the
raw-true tick at time 1000 does NOT clear the pending `signalOffTimestamp`
(the claim says it must); the raw-false tick at time 2000 then emits
`hasSignal: false` although raw was true at time 1000, i.e. raw was not false
continuously for `SIGNAL_OFF_DEBOUNCE_MS` before the event. -/
theorem c1_counterexample :
    (monitorStepV2 (constructorV2 ⟨none, none, none⟩) ⟨0, true, none, none⟩ 0 0 false).1
      = ⟨0, true, some 0, none⟩ ∧
    (monitorStepV2 (constructorV2 ⟨none, none, none⟩) ⟨0, true, some 0, none⟩ 1000 50 true).1
      = ⟨50, true, some 0, none⟩ ∧
    (monitorStepV2 (constructorV2 ⟨none, none, none⟩) ⟨50, true, some 0, none⟩ 2000 0 false).2
      = [⟨false, 0, 2000⟩] := by
  decide

/-- C1 amended: in both variants a raw-true tick in the stable-on state takes
no branch, so it leaves the pending `signalOffTimestamp` (and the rest of the
state except `audioLevel`) unchanged and emits nothing — the debounce window
does NOT restart; the `hasSignal: false` event is then emitted on the first
raw-false tick whose time is at least `SIGNAL_OFF_DEBOUNCE_MS` after the tick
that set `signalOffTimestamp`, regardless of intermediate raw-true ticks. -/
theorem c1_offset_no_cancel_amended :
    (∀ (cfg : Config) (s : SignalState) (now level : ℕ), s.lastHasSignal = true →
      monitorStepV1 cfg s now level true = ({ s with audioLevel := level }, []) ∧
      monitorStepV2 cfg s now level true = ({ s with audioLevel := level }, [])) ∧
    (∀ (cfg : Config) (s : SignalState) (now level t0 : ℕ), s.lastHasSignal = true →
      s.signalOffTimestamp = some t0 →
      (((monitorStepV1 cfg s now level false).2 ≠ [] ↔
        (cfg.SIGNAL_OFF_DEBOUNCE_MS : ℤ) ≤ (now : ℤ) - (t0 : ℤ)) ∧
       ((monitorStepV2 cfg s now level false).2 ≠ [] ↔
        (cfg.SIGNAL_OFF_DEBOUNCE_MS : ℤ) ≤ (now : ℤ) - (t0 : ℤ)))) := by
  constructor
  · intro cfg s now level h
    constructor <;> simp [monitorStepV1, monitorStepV2, h]
  · intro cfg s now level t0 h hoff
    constructor <;>
    · simp only [monitorStepV1, monitorStepV2, h, hoff]
      split_ifs with hc <;> simp_all

/-- C1 amended witness: concrete stable-on run where the raw-true tick leaves
the state unchanged apart from the level, and the later raw-false tick emits. -/
theorem c1_offset_no_cancel_amended_witness :
    monitorStepV2 (constructorV2 ⟨none, none, none⟩) ⟨0, true, some 0, none⟩ 1000 50 true
      = (⟨50, true, some 0, none⟩, []) ∧
    (monitorStepV2 (constructorV2 ⟨none, none, none⟩) ⟨50, true, some 0, none⟩ 2000 0 false).2
      ≠ [] :=
  ⟨(c1_offset_no_cancel_amended.1 (constructorV2 ⟨none, none, none⟩)
      ⟨0, true, some 0, none⟩ 1000 50 rfl).2,
   ((c1_offset_no_cancel_amended.2 (constructorV2 ⟨none, none, none⟩)
      ⟨50, true, some 0, none⟩ 2000 0 0 rfl rfl).2).mpr (by decide)⟩

/-- C2 counterexample (variant 1, default options): onset commit at time 300,
offset timer started at 400, offset commit at 1400 leaves the stale
`signalOffTimestamp = some 400`; the raw-true tick at 1500 then sets
`signalOnTimestamp = some 1500`, so both timestamps are non-null at once. -/
theorem c2_counterexample :
    (runOpsV1 ⟨none, none, none⟩
      [DetectorOp.tick 0 30 true, DetectorOp.tick 300 30 true, DetectorOp.tick 400 0 false,
       DetectorOp.tick 1400 0 false, DetectorOp.tick 1500 30 true]).2.signalOffTimestamp
      = some 400 ∧
    (runOpsV1 ⟨none, none, none⟩
      [DetectorOp.tick 0 30 true, DetectorOp.tick 300 30 true, DetectorOp.tick 400 0 false,
       DetectorOp.tick 1400 0 false, DetectorOp.tick 1500 30 true]).2.signalOnTimestamp
      = some 1500 := by
  decide

/-- C2 amended: in variant 2 every state reachable from the initial state by
any sequence of ticks, `reset()` calls and setter calls has at most one
non-null timestamp; in variant 1 the invariant fails, because the offset
commit leaves a stale `signalOffTimestamp` that can coexist with a later
pending `signalOnTimestamp`. -/
theorem c2_at_most_one_timestamp_amended (opts : Options) (ops : List DetectorOp) :
    (runOpsV2 opts ops).2.signalOffTimestamp = none ∨
    (runOpsV2 opts ops).2.signalOnTimestamp = none := by
  have h := runOpsV2_inv opts ops
  by_cases hoff : (runOpsV2 opts ops).2.signalOffTimestamp = none
  · exact Or.inl hoff
  · refine Or.inr (by_contra fun hon => ?_)
    have t1 := h.1 hoff
    have t2 := h.2 hon
    simp [t1] at t2

/-- C3 counterexample (variant 1, default options, debounce 1000): on a
raw-false tick in the stable-on state with the offset timer aged exactly the
debounce, the commit sets `lastHasSignal` to false and emits the event, but
`signalOffTimestamp` stays `some 0` instead of becoming null. -/
theorem c3_counterexample :
    monitorStepV1 (constructorV1 ⟨none, none, none⟩) ⟨0, true, some 0, none⟩ 1000 5 false
      = (⟨5, false, some 0, none⟩, [⟨false, 5, 1000⟩]) ∧
    (monitorStepV1 (constructorV1 ⟨none, none, none⟩) ⟨0, true, some 0, none⟩
      1000 5 false).1.signalOffTimestamp ≠ none := by
  decide

/-- C3 amended: on a raw-false tick with `lastHasSignal` true and the offset
timer aged at least `SIGNAL_OFF_DEBOUNCE_MS`, both variants set
`lastHasSignal` to false and emit exactly one `{hasSignal: false, audioLevel,
timestamp: now}` event; variant 2 clears `signalOffTimestamp`, but variant 1
leaves it at its old value. -/
theorem c3_off_commit_amended (cfg : Config) (s : SignalState) (now level t0 : ℕ)
    (hl : s.lastHasSignal = true) (hoff : s.signalOffTimestamp = some t0)
    (helap : (cfg.SIGNAL_OFF_DEBOUNCE_MS : ℤ) ≤ (now : ℤ) - (t0 : ℤ)) :
    monitorStepV2 cfg s now level false =
      ({ s with audioLevel := level, lastHasSignal := false, signalOffTimestamp := none },
        [{ hasSignal := false, audioLevel := level, timestamp := now }]) ∧
    monitorStepV1 cfg s now level false =
      ({ s with audioLevel := level, lastHasSignal := false, signalOffTimestamp := some t0 },
        [{ hasSignal := false, audioLevel := level, timestamp := now }]) := by
  constructor <;> simp [monitorStepV1, monitorStepV2, hl, hoff, helap]

/-- C3 amended witness: concrete commit tick in variant 2. -/
theorem c3_off_commit_amended_witness :
    monitorStepV2 (constructorV2 ⟨none, none, none⟩) ⟨50, true, some 0, none⟩ 2000 0 false
      = (⟨0, false, none, none⟩, [⟨false, 0, 2000⟩]) :=
  (c3_off_commit_amended (constructorV2 ⟨none, none, none⟩) ⟨50, true, some 0, none⟩
    2000 0 0 rfl rfl (by decide)).1

/-- C8 counterexample (variant 1): calling `startMonitoring()` on a detector
with no analyser attached flips `isMonitoring` to true (the state is NOT
unchanged) and emits no diagnostic — variant 1 has no analyser guard before
the flag is set, and `_monitor` returns silently at its entry guard. -/
theorem c8_counterexample :
    (startMonitoringV1 (constructorV1 ⟨none, none, none⟩)
        ⟨false, false, none, initSignalState⟩ 0 0 false 1).1.isMonitoring = true ∧
    (startMonitoringV1 (constructorV1 ⟨none, none, none⟩)
        ⟨false, false, none, initSignalState⟩ 0 0 false 1).2.2 = [] := by
  decide

/-- C8 amended: in variant 2, calling `startMonitoring()` without an analyser
(and with monitoring not already running) emits one diagnostic, runs no tick
and leaves the whole detector state unchanged; in variant 1 the same call sets
`isMonitoring` to true with no diagnostic, though no tick runs and nothing is
scheduled. -/
theorem c8_start_no_analyser_amended (cfg : Config) (d : DetectorState) (now level : ℕ)
    (raw : Bool) (newId : ℕ) (ha : d.hasAnalyser = false) (hm : d.isMonitoring = false) :
    startMonitoringV2 cfg d now level raw newId =
      (d, [], ["Analyser not initialized. Call initialize() first."]) ∧
    startMonitoringV1 cfg d now level raw newId =
      ({ d with isMonitoring := true }, [], []) := by
  constructor <;> simp [startMonitoringV1, startMonitoringV2, ha, hm]

/-- C8 amended witness: concrete no-analyser start in variant 2 is a pure
no-op with one diagnostic. -/
theorem c8_start_no_analyser_amended_witness :
    startMonitoringV2 (constructorV2 ⟨none, none, none⟩)
      ⟨false, false, none, initSignalState⟩ 0 0 false 1 =
      (⟨false, false, none, initSignalState⟩, [],
        ["Analyser not initialized. Call initialize() first."]) :=
  (c8_start_no_analyser_amended (constructorV2 ⟨none, none, none⟩)
    ⟨false, false, none, initSignalState⟩ 0 0 false 1 rfl rfl).1

lemma monitorStepV1_onTs_cases (cfg : Config) (s : SignalState) (now level : ℕ) (raw : Bool) :
    (monitorStepV1 cfg s now level raw).1.signalOnTimestamp = none ∨
    (raw = true ∧ s.lastHasSignal = false ∧
      (monitorStepV1 cfg s now level raw).1.lastHasSignal = false ∧
      ((s.signalOnTimestamp = none ∧
          (monitorStepV1 cfg s now level raw).1.signalOnTimestamp = some now) ∨
        (s.signalOnTimestamp ≠ none ∧
          (monitorStepV1 cfg s now level raw).1.signalOnTimestamp = s.signalOnTimestamp))) ∨
    (s.lastHasSignal = true ∧
      (monitorStepV1 cfg s now level raw).1.signalOnTimestamp = s.signalOnTimestamp) := by
  simp only [monitorStepV1]
  split_ifs with h1 h2 h3 h4 h5 <;>
    cases hON : s.signalOnTimestamp <;> simp_all

lemma monitorStepV2_onTs_cases (cfg : Config) (s : SignalState) (now level : ℕ) (raw : Bool) :
    (monitorStepV2 cfg s now level raw).1.signalOnTimestamp = none ∨
    (raw = true ∧ s.lastHasSignal = false ∧
      (monitorStepV2 cfg s now level raw).1.lastHasSignal = false ∧
      ((s.signalOnTimestamp = none ∧
          (monitorStepV2 cfg s now level raw).1.signalOnTimestamp = some now) ∨
        (s.signalOnTimestamp ≠ none ∧
          (monitorStepV2 cfg s now level raw).1.signalOnTimestamp = s.signalOnTimestamp))) ∨
    (s.lastHasSignal = true ∧
      (monitorStepV2 cfg s now level raw).1.signalOnTimestamp = s.signalOnTimestamp) := by
  simp only [monitorStepV2]
  split_ifs with h1 h2 h3 h4 h5 <;>
    cases hON : s.signalOnTimestamp <;> simp_all

lemma runTicksV1_onTs_origin (cfg : Config) (s0 : SignalState)
    (h0 : s0.signalOnTimestamp = none) (pre : List Tick) :
    ∀ t0 : ℕ, (runTicksV1 cfg s0 pre).signalOnTimestamp = some t0 →
      (runTicksV1 cfg s0 pre).lastHasSignal = false ∧
      ∃ pre1 t pre2, pre = pre1 ++ t :: pre2 ∧ t.now = t0 ∧ t.raw = true ∧
        ∀ u ∈ pre2, u.raw = true := by
  induction pre using List.reverseRecOn with
  | nil =>
    intro t0 ht
    simp [runTicksV1, h0] at ht
  | append_singleton l t ih =>
    intro t0 ht
    have hrun : runTicksV1 cfg s0 (l ++ [t]) =
        (monitorStepV1 cfg (runTicksV1 cfg s0 l) t.now t.level t.raw).1 := by
      simp [runTicksV1]
    rw [hrun] at ht ⊢
    rcases monitorStepV1_onTs_cases cfg (runTicksV1 cfg s0 l) t.now t.level t.raw with
      hnone | ⟨hraw, hlastOld, hlastNew, hcase⟩ | ⟨hlastOld, hsame⟩
    · rw [hnone] at ht; exact absurd ht (by simp)
    · refine ⟨hlastNew, ?_⟩
      rcases hcase with ⟨_, hnow⟩ | ⟨_, hkeep⟩
      · rw [hnow] at ht
        refine ⟨l, t, [], by simp, ?_, hraw, by simp⟩
        exact Option.some.injEq _ _ ▸ ht
      · rw [hkeep] at ht
        obtain ⟨_, pre1, u, pre2, hdec, hnow, huraw, hall⟩ := ih t0 ht
        refine ⟨pre1, u, pre2 ++ [t], ?_, hnow, huraw, ?_⟩
        · rw [hdec]; simp
        · intro v hv
          rcases List.mem_append.mp hv with hv1 | hv2
          · exact hall v hv1
          · rw [List.mem_singleton.mp hv2]; exact hraw
    · rw [hsame] at ht
      obtain ⟨hlast, _⟩ := ih t0 ht
      rw [hlast] at hlastOld
      exact absurd hlastOld (by simp)

lemma runTicksV2_onTs_origin (cfg : Config) (s0 : SignalState)
    (h0 : s0.signalOnTimestamp = none) (pre : List Tick) :
    ∀ t0 : ℕ, (runTicksV2 cfg s0 pre).signalOnTimestamp = some t0 →
      (runTicksV2 cfg s0 pre).lastHasSignal = false ∧
      ∃ pre1 t pre2, pre = pre1 ++ t :: pre2 ∧ t.now = t0 ∧ t.raw = true ∧
        ∀ u ∈ pre2, u.raw = true := by
  induction pre using List.reverseRecOn with
  | nil =>
    intro t0 ht
    simp [runTicksV2, h0] at ht
  | append_singleton l t ih =>
    intro t0 ht
    have hrun : runTicksV2 cfg s0 (l ++ [t]) =
        (monitorStepV2 cfg (runTicksV2 cfg s0 l) t.now t.level t.raw).1 := by
      simp [runTicksV2]
    rw [hrun] at ht ⊢
    rcases monitorStepV2_onTs_cases cfg (runTicksV2 cfg s0 l) t.now t.level t.raw with
      hnone | ⟨hraw, hlastOld, hlastNew, hcase⟩ | ⟨hlastOld, hsame⟩
    · rw [hnone] at ht; exact absurd ht (by simp)
    · refine ⟨hlastNew, ?_⟩
      rcases hcase with ⟨_, hnow⟩ | ⟨_, hkeep⟩
      · rw [hnow] at ht
        refine ⟨l, t, [], by simp, ?_, hraw, by simp⟩
        exact Option.some.injEq _ _ ▸ ht
      · rw [hkeep] at ht
        obtain ⟨_, pre1, u, pre2, hdec, hnow, huraw, hall⟩ := ih t0 ht
        refine ⟨pre1, u, pre2 ++ [t], ?_, hnow, huraw, ?_⟩
        · rw [hdec]; simp
        · intro v hv
          rcases List.mem_append.mp hv with hv1 | hv2
          · exact hall v hv1
          · rw [List.mem_singleton.mp hv2]; exact hraw
    · rw [hsame] at ht
      obtain ⟨hlast, _⟩ := ih t0 ht
      rw [hlast] at hlastOld
      exact absurd hlastOld (by simp)

lemma monitorStepV1_onEvent (cfg : Config) (s : SignalState) (now level : ℕ)
    (hev : (monitorStepV1 cfg s now level true).2 ≠ []) :
    s.lastHasSignal = false ∧
    (cfg.SIGNAL_ON_CONFIRM_MS : ℤ) ≤ (now : ℤ) - ((s.signalOnTimestamp.getD now : ℕ) : ℤ) := by
  simp only [monitorStepV1] at hev
  split_ifs at hev with h1 h2 <;> simp_all

lemma monitorStepV2_onEvent (cfg : Config) (s : SignalState) (now level : ℕ)
    (hev : (monitorStepV2 cfg s now level true).2 ≠ []) :
    s.lastHasSignal = false ∧
    (cfg.SIGNAL_ON_CONFIRM_MS : ℤ) ≤ (now : ℤ) - ((s.signalOnTimestamp.getD now : ℕ) : ℤ) := by
  simp only [monitorStepV2] at hev
  split_ifs at hev with h1 h2 <;> simp_all

/-- C6: in both variants, starting from a state with no pending onset timer,
(a) a `hasSignal: true` event on a raw-true tick at time `now` implies the
onset timer started at some `t0` with `now - t0 ≥ SIGNAL_ON_CONFIRM_MS`
(`t0 = now` covers the timer started this very tick) and every tick since the
one that started the timer was raw-true; (b) from the stable-off state with a
positive confirm window, a single raw-true tick followed by a raw-false tick
emits no event and resets `signalOnTimestamp` to null; (c) with
`SIGNAL_ON_CONFIRM_MS = 0` the commit (state change and onset event) happens
on the very first raw-true tick. -/
theorem c6_onset_confirmation :
    (∀ (cfg : Config) (s0 : SignalState) (pre : List Tick) (now level : ℕ),
      s0.signalOnTimestamp = none →
      (((monitorStepV1 cfg (runTicksV1 cfg s0 pre) now level true).2 ≠ [] →
        ∃ t0 : ℕ, (cfg.SIGNAL_ON_CONFIRM_MS : ℤ) ≤ (now : ℤ) - (t0 : ℤ) ∧
          (t0 = now ∨ ∃ pre1 t pre2, pre = pre1 ++ t :: pre2 ∧ t.now = t0 ∧ t.raw = true ∧
            ∀ u ∈ pre2, u.raw = true)) ∧
       ((monitorStepV2 cfg (runTicksV2 cfg s0 pre) now level true).2 ≠ [] →
        ∃ t0 : ℕ, (cfg.SIGNAL_ON_CONFIRM_MS : ℤ) ≤ (now : ℤ) - (t0 : ℤ) ∧
          (t0 = now ∨ ∃ pre1 t pre2, pre = pre1 ++ t :: pre2 ∧ t.now = t0 ∧ t.raw = true ∧
            ∀ u ∈ pre2, u.raw = true)))) ∧
    (∀ (cfg : Config) (s : SignalState) (n0 l0 n1 l1 : ℕ),
      s.lastHasSignal = false → s.signalOnTimestamp = none →
      0 < cfg.SIGNAL_ON_CONFIRM_MS →
      (monitorStepV1 cfg s n0 l0 true).2 = [] ∧
      (monitorStepV1 cfg s n0 l0 true).1.signalOnTimestamp = some n0 ∧
      (monitorStepV1 cfg (monitorStepV1 cfg s n0 l0 true).1 n1 l1 false).2 = [] ∧
      (monitorStepV1 cfg (monitorStepV1 cfg s n0 l0 true).1 n1 l1 false).1.signalOnTimestamp
        = none ∧
      (monitorStepV1 cfg (monitorStepV1 cfg s n0 l0 true).1 n1 l1 false).1.lastHasSignal
        = false) ∧
    (∀ (cfg : Config) (s : SignalState) (now level : ℕ),
      cfg.SIGNAL_ON_CONFIRM_MS = 0 → s.lastHasSignal = false → s.signalOnTimestamp = none →
      monitorStepV1 cfg s now level true =
        ((⟨level, true, none, none⟩ : SignalState),
          [{ hasSignal := true, audioLevel := level, timestamp := now }]) ∧
      monitorStepV2 cfg s now level true =
        ((⟨level, true, none, none⟩ : SignalState),
          [{ hasSignal := true, audioLevel := level, timestamp := now }])) := by
  refine ⟨fun cfg s0 pre now level h0 => ⟨fun hev => ?_, fun hev => ?_⟩,
    fun cfg s n0 l0 n1 l1 hlast hon hpos => ?_,
    fun cfg s now level hc0 hlast hon => ?_⟩
  · obtain ⟨hlast, hc⟩ := monitorStepV1_onEvent cfg (runTicksV1 cfg s0 pre) now level hev
    cases hON : (runTicksV1 cfg s0 pre).signalOnTimestamp with
    | none =>
      refine ⟨now, ?_, Or.inl rfl⟩
      rw [hON] at hc; simpa using hc
    | some t0 =>
      obtain ⟨_, pre1, t, pre2, hdec, hnow, hraw, hall⟩ :=
        runTicksV1_onTs_origin cfg s0 h0 pre t0 hON
      refine ⟨t0, ?_, Or.inr ⟨pre1, t, pre2, hdec, hnow, hraw, hall⟩⟩
      rw [hON] at hc; simpa using hc
  · obtain ⟨hlast, hc⟩ := monitorStepV2_onEvent cfg (runTicksV2 cfg s0 pre) now level hev
    cases hON : (runTicksV2 cfg s0 pre).signalOnTimestamp with
    | none =>
      refine ⟨now, ?_, Or.inl rfl⟩
      rw [hON] at hc; simpa using hc
    | some t0 =>
      obtain ⟨_, pre1, t, pre2, hdec, hnow, hraw, hall⟩ :=
        runTicksV2_onTs_origin cfg s0 h0 pre t0 hON
      refine ⟨t0, ?_, Or.inr ⟨pre1, t, pre2, hdec, hnow, hraw, hall⟩⟩
      rw [hON] at hc; simpa using hc
  · have hnc : ¬((cfg.SIGNAL_ON_CONFIRM_MS : ℤ) ≤ (n0 : ℤ) - (n0 : ℤ)) := by omega
    have hne : cfg.SIGNAL_ON_CONFIRM_MS ≠ 0 := by omega
    obtain ⟨al, ll, offA, onA⟩ := s
    simp only [SignalState.lastHasSignal] at hlast
    simp only [SignalState.signalOnTimestamp] at hon
    subst hlast hon
    refine ⟨?_, ?_, ?_, ?_, ?_⟩ <;> simp [monitorStepV1, hnc, hne]
  · obtain ⟨al, ll, offA, onA⟩ := s
    simp only [SignalState.lastHasSignal] at hlast
    simp only [SignalState.signalOnTimestamp] at hon
    subst hlast hon
    constructor <;> simp [monitorStepV1, monitorStepV2, hc0]

/-- C6 witness: (a) with variant-1 defaults (confirm 300), a raw-true tick at
time 0 followed by the committing raw-true tick at time 300 yields a sustained
window; (b) concrete false alarm emits nothing and clears the timer; (c) with
variant-2 defaults (confirm 0) the very first raw-true tick commits. -/
theorem c6_onset_confirmation_witness :
    (∃ t0 : ℕ,
      (((constructorV1 ⟨none, none, none⟩).SIGNAL_ON_CONFIRM_MS : ℤ) ≤
        (300 : ℤ) - (t0 : ℤ)) ∧
      (t0 = 300 ∨ ∃ pre1 t pre2,
        [(⟨0, 30, true⟩ : Tick)] = pre1 ++ t :: pre2 ∧ t.now = t0 ∧ t.raw = true ∧
        ∀ u ∈ pre2, u.raw = true)) ∧
    ((monitorStepV1 (constructorV1 ⟨none, none, none⟩) initSignalState 0 30 true).2 = [] ∧
      (monitorStepV1 (constructorV1 ⟨none, none, none⟩)
        (monitorStepV1 (constructorV1 ⟨none, none, none⟩) initSignalState 0 30 true).1
        100 0 false).1.signalOnTimestamp = none) ∧
    monitorStepV2 (constructorV2 ⟨none, none, none⟩) initSignalState 5 40 true =
      (⟨40, true, none, none⟩, [⟨true, 40, 5⟩]) := by
  refine ⟨?_, ?_, ?_⟩
  · exact (c6_onset_confirmation.1 (constructorV1 ⟨none, none, none⟩) initSignalState
      [⟨0, 30, true⟩] 300 30 rfl).1 (by decide)
  · obtain ⟨e1, _, _, hon, _⟩ := c6_onset_confirmation.2.1 (constructorV1 ⟨none, none, none⟩)
      initSignalState 0 30 100 0 rfl rfl (by decide)
    exact ⟨e1, hon⟩
  · exact (c6_onset_confirmation.2.2 (constructorV2 ⟨none, none, none⟩) initSignalState
      5 40 rfl rfl rfl).2
